import Mathlib

/-!
Shallow embedding of the design-pattern demo scripts of this repository
(Prototype, Proxy, Observer, Simple Factory, Strategy, Factory Method,
Singleton, Facade), together with theorems checking the specification's
claims about their behaviour.  JavaScript numbers are modelled as exact
rationals (ℚ); objects with identity are modelled through a small heap of
numbered objects; `throw` is modelled by `Except` or an explicit flag.
-/

namespace DesignPatterns

/-! ### Prototype pattern (src/unnamed/part_000)

`Rectangle(width, height)` sets `width`, `height` and `type = "Rectangle"`;
`clone()` returns `new Rectangle(this.width, this.height)`.  `Circle(radius)`
sets `radius` and `type = "Circle"`; `clone()` returns
`new Circle(this.radius)`.  Object identity is modelled by a heap that maps
numeric object ids to object values; `new` allocates a fresh id. -/

structure RectObj where
  width : ℚ
  height : ℚ
  type : String
  deriving Repr, DecidableEq

structure CircObj where
  radius : ℚ
  type : String
  deriving Repr, DecidableEq

inductive ShapeObj where
  | rect : RectObj → ShapeObj
  | circ : CircObj → ShapeObj
  deriving Repr, DecidableEq

structure Heap where
  objs : Nat → Option ShapeObj
  next : Nat

/-- Allocate a fresh object on the heap, returning its id. -/
def Heap.alloc (hp : Heap) (v : ShapeObj) : Nat × Heap :=
  (hp.next, ⟨fun j => if j = hp.next then some v else hp.objs j, hp.next + 1⟩)

/-- Constructor `new Rectangle(width, height)`: it stores the two
dimensions and sets `type` to `"Rectangle"`. -/
def mkRectangle (w h : ℚ) (hp : Heap) : Nat × Heap :=
  hp.alloc (ShapeObj.rect ⟨w, h, "Rectangle"⟩)

/-- Constructor `new Circle(radius)`: it stores the radius and sets
`type` to `"Circle"`. -/
def mkCircle (r : ℚ) (hp : Heap) : Nat × Heap :=
  hp.alloc (ShapeObj.circ ⟨r, "Circle"⟩)

/-- Method `clone()`: a `Rectangle` clones to `new Rectangle(this.width,
this.height)`, a `Circle` to `new Circle(this.radius)`; `none` when the id
does not point at a shape. -/
def cloneShape (hp : Heap) (i : Nat) : Option (Nat × Heap) :=
  match hp.objs i with
  | some (ShapeObj.rect r) => some (mkRectangle r.width r.height hp)
  | some (ShapeObj.circ c) => some (mkCircle c.radius hp)
  | none => none

/-- Mutating a field of the object with id `i` (e.g.
`clonedRectangle.width = 30`): the object at `i` is replaced by the updated
value `v`; every other heap cell is untouched. -/
def setShape (hp : Heap) (i : Nat) (v : ShapeObj) : Heap :=
  ⟨fun j => if j = i then some v else hp.objs j, hp.next⟩

/-! ### Proxy pattern (src/unnamed/part_001)

`RealBankAccount` holds a `balance`; `withdraw(amount)` subtracts and
returns `true` when `amount <= balance`, otherwise returns `false` leaving
the balance alone.  `BankAccountProxy` first validates the amount
(`amount <= 0` is rejected), then refuses withdrawals with
`amount > 1000`, and only otherwise forwards to the real account.  Each
proxy operation is modelled as a function from the real account's balance
to the new balance, paired with a flag recording whether a method of the
wrapped `RealBankAccount` was invoked. -/

def RealBankAccount.withdraw (balance amount : ℚ) : Bool × ℚ :=
  if amount ≤ balance then (true, balance - amount) else (false, balance)

def RealBankAccount.deposit (balance amount : ℚ) : ℚ :=
  balance + amount

def BankAccountProxy.validateTransaction (amount : ℚ) : Bool :=
  if amount ≤ 0 then false else true

def BankAccountProxy.withdraw (balance amount : ℚ) : ℚ × Bool :=
  if BankAccountProxy.validateTransaction amount then
    if amount > 1000 then (balance, false)
    else ((RealBankAccount.withdraw balance amount).2, true)
  else (balance, false)

def BankAccountProxy.deposit (balance amount : ℚ) : ℚ × Bool :=
  if BankAccountProxy.validateTransaction amount then
    (RealBankAccount.deposit balance amount, true)
  else (balance, false)

/-! ### Observer pattern (src/observer.js)

`Subject` keeps `observers` as an array; `attach` pushes at the end,
`detach` looks up the observer with `indexOf` and, when found
(`index > -1`), splices out that single occurrence, and `notify(data)`
calls `observer.update(data)` on every element of the array in order.
Observers are identified by numeric ids. -/

def Subject.attach (observers : List Nat) (o : Nat) : List Nat :=
  observers ++ [o]

/-- JavaScript `Array.prototype.indexOf`: index of the first occurrence, `none`
standing for JavaScript's `-1`. -/
def jsIndexOf (o : Nat) : List Nat → Option Nat
  | [] => none
  | x :: xs => if x = o then some 0 else (jsIndexOf o xs).map (· + 1)

def Subject.detach (observers : List Nat) (o : Nat) : List Nat :=
  match jsIndexOf o observers with
  | some i => observers.eraseIdx i
  | none => observers

/-- The sequence of observers whose `update(data)` is invoked by
`notify(data)`: `forEach` visits exactly the elements of the array. -/
def Subject.notifyCalls (observers : List Nat) : List Nat :=
  observers

/-! ### Simple factory (src/simple-factory.js)

`AnimalFactory.createAnimal(type)` switches on `type.toLowerCase()`:
`"dog"` yields a `Dog`, `"cat"` a `Cat`, anything else throws
`Error("Animal type not supported")`. -/

inductive Animal where
  | dog : Animal
  | cat : Animal
  deriving Repr, DecidableEq

/-- JavaScript `String.prototype.toLowerCase` on the ASCII letters used here: each
character is lowered individually. -/
def toLowerCase (s : String) : String :=
  ⟨s.data.map Char.toLower⟩

def AnimalFactory.createAnimal (type : String) : Except String Animal :=
  if toLowerCase type = "dog" then Except.ok Animal.dog
  else if toLowerCase type = "cat" then Except.ok Animal.cat
  else Except.error "Animal type not supported"

/-! ### Strategy pattern (src/strategy.js)

`CashStrategy.pay(amount)` throws `Error("Insufficient cash amount")` when
`amount > this.cashAmount` (before any mutation), otherwise subtracts
`amount` from `this.cashAmount`.  The result pairs a "threw" flag with the
value of the `cashAmount` field after the call. -/

def CashStrategy.pay (cashAmount amount : ℚ) : Bool × ℚ :=
  if amount > cashAmount then (true, cashAmount)
  else (false, cashAmount - amount)

/-! ### Factory method (src/factory-method.js)

The constructors of `Vehicle` and `VehicleFactory` throw
`Error("Abstract class cannot be instantiated")` when invoked with
`this.constructor` equal to the abstract class itself; subclass
construction runs the same check with the subclass as `this.constructor`
and passes.  `getType` is overridden by `Car`/`Bike` and `createVehicle`
by `CarFactory`/`BikeFactory`. -/

inductive VehicleClass where
  | vehicle : VehicleClass
  | car : VehicleClass
  | bike : VehicleClass
  deriving Repr, DecidableEq

inductive FactoryClass where
  | vehicleFactory : FactoryClass
  | carFactory : FactoryClass
  | bikeFactory : FactoryClass
  deriving Repr, DecidableEq

/-- Running the `Vehicle` constructor with `this.constructor = cls`. -/
def Vehicle.construct (cls : VehicleClass) : Except String VehicleClass :=
  if cls = VehicleClass.vehicle then
    Except.error "Abstract class cannot be instantiated"
  else Except.ok cls

/-- Running the `VehicleFactory` constructor with
`this.constructor = cls`. -/
def VehicleFactory.construct (cls : FactoryClass) : Except String FactoryClass :=
  if cls = FactoryClass.vehicleFactory then
    Except.error "Abstract class cannot be instantiated"
  else Except.ok cls

/-- Dynamic dispatch of `getType()` on a vehicle instance. -/
def Vehicle.getType (cls : VehicleClass) : Except String String :=
  match cls with
  | VehicleClass.vehicle => Except.error "getType() method must be implemented"
  | VehicleClass.car => Except.ok "Car"
  | VehicleClass.bike => Except.ok "Bike"

/-- Dynamic dispatch of `createVehicle()` on a factory instance. -/
def VehicleFactory.createVehicle (cls : FactoryClass) : Except String VehicleClass :=
  match cls with
  | FactoryClass.vehicleFactory =>
      Except.error "createVehicle() method must be implemented"
  | FactoryClass.carFactory => Vehicle.construct VehicleClass.car
  | FactoryClass.bikeFactory => Vehicle.construct VehicleClass.bike

/-! ### Singleton pattern (src/singleton.js)

`Database`'s constructor returns the stored `Database.instance` when one
exists; otherwise it initialises the fields and records itself as
`Database.instance`.  `Database.getInstance()` constructs the instance on
first use and returns the stored one afterwards.  The static
`Database.instance` slot and a fresh-id counter form the global state;
distinct ids model distinct object identities. -/

structure DatabaseObj where
  id : Nat
  connectionString : String
  connected : Bool
  deriving Repr, DecidableEq

structure DBState where
  inst : Option DatabaseObj
  nextId : Nat
  deriving Repr, DecidableEq

/-- Constructor `new Database()`: returns the existing instance when
`Database.instance` is set, otherwise allocates a fresh object, sets its
fields, and stores it as `Database.instance`. -/
def newDatabase (st : DBState) : DatabaseObj × DBState :=
  match st.inst with
  | some d => (d, st)
  | none =>
      let d : DatabaseObj :=
        ⟨st.nextId, "mongodb://localhost:27017/mydb", false⟩
      (d, ⟨some d, st.nextId + 1⟩)

/-- Static method `Database.getInstance()`. -/
def Database.getInstance (st : DBState) : DatabaseObj × DBState :=
  match st.inst with
  | some d => (d, st)
  | none => newDatabase st

/-! ### Facade pattern (src/pacade.js)

`ShopFacade.calculate(price)` applies the discount, then the fees, then
adds the shipping computed on the post-fee price. -/

def Discount.calculate (price : ℚ) : ℚ :=
  price * 0.9

def Shipping.calculate (price : ℚ) : ℚ :=
  price * 0.1

def Fees.calculate (price : ℚ) : ℚ :=
  price * 1.05

def ShopFacade.calculate (price : ℚ) : ℚ :=
  let p1 := Discount.calculate price
  let p2 := Fees.calculate p1
  p2 + Shipping.calculate p2

/-! ## Theorems for the claims -/

/-- Claim C1: cloning a `Rectangle` (resp. `Circle`) yields a distinct
object whose `width`/`height` (resp. `radius`) and `type` fields equal the
original's, and mutating any field of the clone leaves every field of the
original unchanged. -/
theorem claim_C1_prototype_clone (hp : Heap) (i : Nat) (hi : i < hp.next) :
    (∀ robj : RectObj, hp.objs i = some (ShapeObj.rect robj) →
      robj.type = "Rectangle" →
      ∃ j hp2, cloneShape hp i = some (j, hp2) ∧ j ≠ i ∧
        hp2.objs j = some (ShapeObj.rect robj) ∧
        hp2.objs i = some (ShapeObj.rect robj) ∧
        ∀ v, (setShape hp2 j v).objs i = some (ShapeObj.rect robj)) ∧
    (∀ cobj : CircObj, hp.objs i = some (ShapeObj.circ cobj) →
      cobj.type = "Circle" →
      ∃ j hp2, cloneShape hp i = some (j, hp2) ∧ j ≠ i ∧
        hp2.objs j = some (ShapeObj.circ cobj) ∧
        hp2.objs i = some (ShapeObj.circ cobj) ∧
        ∀ v, (setShape hp2 j v).objs i = some (ShapeObj.circ cobj)) := by
  have hne : i ≠ hp.next := Nat.ne_of_lt hi
  constructor
  · intro robj hr ht
    obtain ⟨w, h, t⟩ := robj
    simp only at ht
    subst ht
    refine ⟨hp.next, (mkRectangle w h hp).2, ?_, Ne.symm hne, ?_, ?_, ?_⟩
    · simp [cloneShape, hr, mkRectangle, Heap.alloc]
    · simp [mkRectangle, Heap.alloc]
    · simp [mkRectangle, Heap.alloc, hne, hr]
    · intro v
      simp [mkRectangle, Heap.alloc, setShape, hne, hr]
  · intro cobj hr ht
    obtain ⟨r, t⟩ := cobj
    simp only at ht
    subst ht
    refine ⟨hp.next, (mkCircle r hp).2, ?_, Ne.symm hne, ?_, ?_, ?_⟩
    · simp [cloneShape, hr, mkCircle, Heap.alloc]
    · simp [mkCircle, Heap.alloc]
    · simp [mkCircle, Heap.alloc, hne, hr]
    · intro v
      simp [mkCircle, Heap.alloc, setShape, hne, hr]

def demoHeap : Heap :=
  (mkRectangle 10 20 ⟨fun _ => none, 0⟩).2

theorem claim_C1_witness :
    0 < demoHeap.next ∧
    demoHeap.objs 0 = some (ShapeObj.rect ⟨10, 20, "Rectangle"⟩) ∧
    ∃ j hp2, cloneShape demoHeap 0 = some (j, hp2) ∧ j ≠ 0 ∧
      hp2.objs j = some (ShapeObj.rect ⟨10, 20, "Rectangle"⟩) ∧
      hp2.objs 0 = some (ShapeObj.rect ⟨10, 20, "Rectangle"⟩) ∧
      ∀ v, (setShape hp2 j v).objs 0 = some (ShapeObj.rect ⟨10, 20, "Rectangle"⟩) :=
  ⟨by decide, rfl,
    (claim_C1_prototype_clone demoHeap 0 (by decide)).1 ⟨10, 20, "Rectangle"⟩ rfl rfl⟩

/-- Claim C3 as stated is false: `attach` may add the same observer twice,
and `detach` removes only the first occurrence, so an observer that was
attached twice and later detached is still invoked by `notify`.  Concrete
run: attach observer `0` twice, detach it once — `notify` still calls its
`update`. -/
theorem claim_C3_counterexample :
    0 ∈ Subject.notifyCalls
      (Subject.detach (Subject.attach (Subject.attach [] 0) 0) 0) := by
  decide

/-- The `detach` method removes exactly the first occurrence. -/
theorem detach_eq_erase (o : Nat) (observers : List Nat) :
    Subject.detach observers o = observers.erase o := by
  induction observers with
  | nil => rfl
  | cons x xs ih =>
    by_cases hx : x = o
    · subst hx
      simp [Subject.detach, jsIndexOf, List.eraseIdx]
    · have hErase : (x :: xs).erase o = x :: xs.erase o := by
        rw [List.erase_cons_tail]
        simp [hx]
      rcases hidx : jsIndexOf o xs with _ | i
      · have h1 : Subject.detach xs o = xs := by simp [Subject.detach, hidx]
        have h2 : xs.erase o = xs := by rw [← ih, h1]
        simp [Subject.detach, jsIndexOf, hx, hidx, hErase, h2]
      · have h2 : xs.erase o = xs.eraseIdx i := by
          rw [← ih]; simp [Subject.detach, hidx]
        calc Subject.detach (x :: xs) o = x :: xs.eraseIdx i := by
              simp [Subject.detach, jsIndexOf, hx, hidx]
          _ = x :: xs.erase o := by rw [h2]
          _ = (x :: xs).erase o := hErase.symm

/-- Claim C3, amended: provided the detached observer occurs at most once
in the observer list (e.g. it was attached only once), after `detach` no
subsequent `notify` invokes its `update`, while every other observer is
notified exactly as before. -/
theorem claim_C3_detach_stops_notifications (observers : List Nat) (o : Nat)
    (hcount : observers.count o ≤ 1) :
    o ∉ Subject.notifyCalls (Subject.detach observers o) ∧
    ∀ o2 : Nat, o2 ≠ o →
      (o2 ∈ Subject.notifyCalls (Subject.detach observers o) ↔ o2 ∈ observers) := by
  rw [Subject.notifyCalls, detach_eq_erase]
  constructor
  · intro hmem
    have h1 := List.count_erase_self o observers
    have h2 : 0 < (observers.erase o).count o := List.count_pos_iff.mpr hmem
    omega
  · intro o2 ho2
    exact List.mem_erase_of_ne ho2

theorem claim_C3_witness :
    ([0, 1] : List Nat).count 0 ≤ 1 ∧
    0 ∉ Subject.notifyCalls (Subject.detach [0, 1] 0) ∧
    (1 ∈ Subject.notifyCalls (Subject.detach [0, 1] 0) ↔ 1 ∈ ([0, 1] : List Nat)) :=
  ⟨by decide,
    (claim_C3_detach_stops_notifications [0, 1] 0 (by decide)).1,
    (claim_C3_detach_stops_notifications [0, 1] 0 (by decide)).2 1 (by decide)⟩

/-- Claim C4: `AnimalFactory.createAnimal(type)` returns a `Dog` when the
lowercase form of `type` is `"dog"`, a `Cat` when it is `"cat"`, and
throws `Error("Animal type not supported")` otherwise. -/
theorem claim_C4_create_animal (type : String) :
    (toLowerCase type = "dog" →
      AnimalFactory.createAnimal type = Except.ok Animal.dog) ∧
    (toLowerCase type = "cat" →
      AnimalFactory.createAnimal type = Except.ok Animal.cat) ∧
    (toLowerCase type ≠ "dog" → toLowerCase type ≠ "cat" →
      AnimalFactory.createAnimal type = Except.error "Animal type not supported") :=
  ⟨fun h => by simp [AnimalFactory.createAnimal, h],
   fun h => by simp [AnimalFactory.createAnimal, h],
   fun h1 h2 => by simp [AnimalFactory.createAnimal, h1, h2]⟩

theorem claim_C4_witness :
    (toLowerCase "DOG" = "dog" ∧
      AnimalFactory.createAnimal "DOG" = Except.ok Animal.dog) ∧
    (toLowerCase "Cat" = "cat" ∧
      AnimalFactory.createAnimal "Cat" = Except.ok Animal.cat) ∧
    (toLowerCase "bird" ≠ "dog" ∧ toLowerCase "bird" ≠ "cat" ∧
      AnimalFactory.createAnimal "bird" =
        Except.error "Animal type not supported") :=
  ⟨⟨by decide, (claim_C4_create_animal "DOG").1 (by decide)⟩,
   ⟨by decide, (claim_C4_create_animal "Cat").2.1 (by decide)⟩,
   ⟨by decide, by decide,
     (claim_C4_create_animal "bird").2.2 (by decide) (by decide)⟩⟩

/-- Claim C2: for every amount strictly greater than 1000,
`BankAccountProxy.withdraw(amount)` rejects the withdrawal without calling
the real account, so the underlying balance is unchanged, whatever the
balance is (in particular when it is at least the amount). -/
theorem claim_C2_proxy_limit (balance amount : ℚ) (h : 1000 < amount) :
    BankAccountProxy.withdraw balance amount = (balance, false) := by
  have h0 : ¬ amount ≤ 0 := by linarith
  simp [BankAccountProxy.withdraw, BankAccountProxy.validateTransaction, h0, h]

theorem claim_C2_witness :
    (1000 : ℚ) < 1500 ∧ BankAccountProxy.withdraw 2000 1500 = (2000, false) :=
  ⟨by norm_num, claim_C2_proxy_limit 2000 1500 (by norm_num)⟩

/-- Claim C5: method `RealBankAccount.withdraw(amount)` succeeds (returns `true`
and decrements the balance by `amount`) exactly when `amount <= balance`,
otherwise returns `false` with the balance unchanged; from a non-negative
balance the balance never becomes negative. -/
theorem claim_C5_real_withdraw (balance amount : ℚ) :
    ((RealBankAccount.withdraw balance amount).1 = true ↔ amount ≤ balance) ∧
    (amount ≤ balance →
      RealBankAccount.withdraw balance amount = (true, balance - amount)) ∧
    (¬ amount ≤ balance →
      RealBankAccount.withdraw balance amount = (false, balance)) ∧
    (0 ≤ balance → 0 ≤ (RealBankAccount.withdraw balance amount).2) := by
  by_cases h : amount ≤ balance
  · refine ⟨by simp [RealBankAccount.withdraw, h], fun _ => by simp [RealBankAccount.withdraw, h],
      fun hc => absurd h hc, fun _ => ?_⟩
    simp only [RealBankAccount.withdraw, if_pos h]
    linarith
  · refine ⟨by simp [RealBankAccount.withdraw, h], fun hc => absurd hc h,
      fun _ => by simp [RealBankAccount.withdraw, h], fun hb => ?_⟩
    simpa [RealBankAccount.withdraw, h] using hb

theorem claim_C5_witness :
    (30 : ℚ) ≤ 100 ∧ RealBankAccount.withdraw 100 30 = (true, 100 - 30) :=
  ⟨by norm_num, (claim_C5_real_withdraw 100 30).2.1 (by norm_num)⟩

/-- Claim C8: for every amount `<= 0`, both proxy operations fail
validation and do not invoke any method of the wrapped real account, so
its balance is unchanged. -/
theorem claim_C8_proxy_invalid (balance amount : ℚ) (h : amount ≤ 0) :
    BankAccountProxy.deposit balance amount = (balance, false) ∧
    BankAccountProxy.withdraw balance amount = (balance, false) := by
  constructor <;>
    simp [BankAccountProxy.deposit, BankAccountProxy.withdraw,
      BankAccountProxy.validateTransaction, h]

theorem claim_C8_witness :
    (-50 : ℚ) ≤ 0 ∧
    BankAccountProxy.deposit 100 (-50) = (100, false) ∧
    BankAccountProxy.withdraw 100 (-50) = (100, false) :=
  ⟨by norm_num, claim_C8_proxy_invalid 100 (-50) (by norm_num)⟩

/-- Claim C6: `CashStrategy.pay(amount)` throws exactly when
`amount > cashAmount`, in which case `cashAmount` is unchanged; otherwise
it decreases `cashAmount` by exactly `amount` and does not throw. -/
theorem claim_C6_cash_pay (cashAmount amount : ℚ) :
    ((CashStrategy.pay cashAmount amount).1 = true ↔ cashAmount < amount) ∧
    (cashAmount < amount →
      CashStrategy.pay cashAmount amount = (true, cashAmount)) ∧
    (amount ≤ cashAmount →
      CashStrategy.pay cashAmount amount = (false, cashAmount - amount)) := by
  by_cases h : cashAmount < amount
  · exact ⟨by simp [CashStrategy.pay, h], fun _ => by simp [CashStrategy.pay, h],
      fun hc => absurd h (not_lt.mpr hc)⟩
  · exact ⟨by simp [CashStrategy.pay, h], fun hc => absurd hc h,
      fun _ => by simp [CashStrategy.pay, h]⟩

theorem claim_C6_witness :
    ((300 : ℚ) ≤ 500 ∧ CashStrategy.pay 500 300 = (false, 500 - 300)) ∧
    ((500 : ℚ) < 700 ∧ CashStrategy.pay 500 700 = (true, 500)) :=
  ⟨⟨by norm_num, (claim_C6_cash_pay 500 300).2.2 (by norm_num)⟩,
   ⟨by norm_num, (claim_C6_cash_pay 500 700).2.1 (by norm_num)⟩⟩

/-- Claim C7: constructing `Vehicle` or `VehicleFactory` directly throws
"Abstract class cannot be instantiated"; constructing `Car`, `Bike`,
`CarFactory` and `BikeFactory` succeeds, and the two concrete factories
create vehicles whose `getType()` is "Car" resp. "Bike". -/
theorem claim_C7_abstract_classes :
    Vehicle.construct VehicleClass.vehicle =
      Except.error "Abstract class cannot be instantiated" ∧
    VehicleFactory.construct FactoryClass.vehicleFactory =
      Except.error "Abstract class cannot be instantiated" ∧
    Vehicle.construct VehicleClass.car = Except.ok VehicleClass.car ∧
    Vehicle.construct VehicleClass.bike = Except.ok VehicleClass.bike ∧
    VehicleFactory.construct FactoryClass.carFactory =
      Except.ok FactoryClass.carFactory ∧
    VehicleFactory.construct FactoryClass.bikeFactory =
      Except.ok FactoryClass.bikeFactory ∧
    (VehicleFactory.createVehicle FactoryClass.carFactory).bind Vehicle.getType =
      Except.ok "Car" ∧
    (VehicleFactory.createVehicle FactoryClass.bikeFactory).bind Vehicle.getType =
      Except.ok "Bike" :=
  ⟨rfl, rfl, rfl, rfl, rfl, rfl, rfl, rfl⟩

/-- Claim C9: `Database.getInstance()` always returns the same single
instance, and a direct `new Database()` performed while an instance exists
returns that existing instance, leaving the state unchanged. -/
theorem claim_C9_singleton (st : DBState) :
    (Database.getInstance (Database.getInstance st).2).1 =
      (Database.getInstance st).1 ∧
    (newDatabase (Database.getInstance st).2).1 = (Database.getInstance st).1 ∧
    ∀ d : DatabaseObj, st.inst = some d → newDatabase st = (d, st) := by
  cases hst : st.inst with
  | none => simp [Database.getInstance, newDatabase, hst]
  | some d => simp [Database.getInstance, newDatabase, hst]

def dbDemoState : DBState :=
  (Database.getInstance ⟨none, 0⟩).2

theorem claim_C9_witness :
    dbDemoState.inst = some ⟨0, "mongodb://localhost:27017/mydb", false⟩ ∧
    newDatabase dbDemoState =
      (⟨0, "mongodb://localhost:27017/mydb", false⟩, dbDemoState) :=
  ⟨rfl, (claim_C9_singleton dbDemoState).2.2 _ rfl⟩

/-- Claim C10: `ShopFacade.calculate(price)` returns
`price * 0.9 * 1.05 * 1.1`, i.e. `1.0395` times the input, under exact
arithmetic. -/
theorem claim_C10_facade (price : ℚ) :
    ShopFacade.calculate price = price * 0.9 * 1.05 * 1.1 ∧
    ShopFacade.calculate price = 1.0395 * price := by
  constructor <;>
    · simp only [ShopFacade.calculate, Discount.calculate, Fees.calculate,
        Shipping.calculate]
      ring_nf

end DesignPatterns
